import Mathlib

/-
Verification of the Curing-Cabinet AirFlow Manifold generator.

The Python sources build 3D-printable parts of an airflow manifold with
the CAD kernel doing the solid modelling.  All of the logic authored by
the repository itself is geometric parameter arithmetic: quadrant
extents, snap-fit feature rows, bolt-hole placement, tube grids, and the
intake/sensor area check.  We embed that arithmetic over exact rationals
(Python floats are modelled as the exact rational values of the
literals; math.pi is modelled as the exact rational value of the IEEE
double the Python runtime uses) and prove the spec's claims about it.
-/

namespace AirFlowManifold

/-! ## Parameter table (src/manifold_design.py lines 26-95) -/

def MANIFOLD_BASE_SIZE : ℚ := 400
def MANIFOLD_OUTER_MARGIN : ℚ := 20
def WALL_THICKNESS : ℚ := 3
def TUBE_OD : ℚ := 38
def TUBE_ID : ℚ := 35
def NUM_TUBES_X : ℚ := 3
def NUM_TUBES_Y : ℚ := 3
def SENSOR_PCB_SIZE : ℚ := 127/5
def SENSOR_CHAMBER_WIDTH : ℚ := 42
def TRANSITION_VERTICAL_HEIGHT : ℚ := 150
def TRANSITION_LENGTH : ℚ := 150
def TARGET_SPEED_MULTIPLIER : ℚ := 5
def SNAP_FIT_WIDTH : ℚ := 6
def SNAP_FIT_HEIGHT : ℚ := 8
def SNAP_FIT_DEPTH : ℚ := 2
def SNAP_FIT_TAPER : ℚ := 3/10
def SNAP_FIT_CLEARANCE : ℚ := 3/10
def MAX_PRINT_X : ℚ := 240
def MAX_PRINT_Y : ℚ := 210
def MAX_PRINT_Z : ℚ := 210

/-- Exact rational value of the IEEE-754 double Python exposes as math.pi. -/
def mathPi : ℚ := 884279719003555 / 281474976710656

/-- Python's int() conversion truncates toward zero. -/
def pyInt (q : ℚ) : ℤ := if q < 0 then -(⌊-q⌋) else ⌊q⌋

/-! ## Area check (src/manifold_design.py lines 99-125) -/

/-- calculate_intake_area: NUM_TUBES_X * NUM_TUBES_Y * math.pi * (TUBE_ID/2)**2. -/
def calculate_intake_area : ℚ :=
  NUM_TUBES_X * NUM_TUBES_Y * mathPi * (TUBE_ID / 2) ^ 2

/-- calculate_sensor_area: SENSOR_CHAMBER_WIDTH**2 minus the PCB blockage
SENSOR_PCB_SIZE * 1 (the PCB is mounted vertically and blocks flow area). -/
def calculate_sensor_area : ℚ :=
  SENSOR_CHAMBER_WIDTH ^ 2 - SENSOR_PCB_SIZE * 1

/-- verify_speed_multiplier's computed ratio intake_area / sensor_area. -/
def actual_multiplier : ℚ := calculate_intake_area / calculate_sensor_area

/-- verify_speed_multiplier prints a WARNING iff the multiplier deviates from
the target by more than 0.5. -/
def speed_multiplier_warning : Bool :=
  decide (|actual_multiplier - TARGET_SPEED_MULTIPLIER| > 1/2)

/-- C6 counterexample: with the shipped parameters, calculate_sensor_area()
returns 1738.6 mm^2 (42^2 minus the 25.4 mm^2 PCB blockage), not 1764.0 mm^2
as claimed, and the speed multiplier is about 4.98, not about 4.91. -/
theorem c6_sensor_area_not_1764 :
    calculate_sensor_area ≠ 1764 ∧ |actual_multiplier - 491/100| > 1/100 := by
  constructor
  · unfold calculate_sensor_area SENSOR_CHAMBER_WIDTH SENSOR_PCB_SIZE
    norm_num
  · unfold actual_multiplier calculate_intake_area calculate_sensor_area
      NUM_TUBES_X NUM_TUBES_Y mathPi TUBE_ID SENSOR_CHAMBER_WIDTH SENSOR_PCB_SIZE
    rw [gt_iff_lt, lt_abs]
    left
    norm_num

/-- C6 (amended): calculate_intake_area() returns 9 * pi * 17.5^2
(approximately 8659.0 mm^2); calculate_sensor_area() returns 1738.6 mm^2
(the 42 mm square chamber area minus the 25.4 mm^2 PCB blockage); the
resulting speed multiplier is approximately 4.98, within the declared 0.5
tolerance of the 5x target, so no deviation warning is printed. -/
theorem c6_area_and_multiplier :
    calculate_intake_area = 9 * mathPi * (35/2) ^ 2 ∧
    |calculate_intake_area - 8659| < 1/20 ∧
    calculate_sensor_area = 8693/5 ∧
    |actual_multiplier - 498/100| < 1/100 ∧
    |actual_multiplier - TARGET_SPEED_MULTIPLIER| ≤ 1/2 ∧
    speed_multiplier_warning = false := by
  have hm : |actual_multiplier - TARGET_SPEED_MULTIPLIER| ≤ 1/2 := by
    unfold actual_multiplier calculate_intake_area calculate_sensor_area
      TARGET_SPEED_MULTIPLIER NUM_TUBES_X NUM_TUBES_Y mathPi TUBE_ID
      SENSOR_CHAMBER_WIDTH SENSOR_PCB_SIZE
    rw [abs_sub_le_iff]
    norm_num
  refine ⟨?_, ?_, ?_, ?_, hm, ?_⟩
  · unfold calculate_intake_area NUM_TUBES_X NUM_TUBES_Y TUBE_ID
    norm_num
  · unfold calculate_intake_area NUM_TUBES_X NUM_TUBES_Y mathPi TUBE_ID
    rw [abs_sub_lt_iff]
    norm_num
  · unfold calculate_sensor_area SENSOR_CHAMBER_WIDTH SENSOR_PCB_SIZE
    norm_num
  · unfold actual_multiplier calculate_intake_area calculate_sensor_area
      NUM_TUBES_X NUM_TUBES_Y mathPi TUBE_ID SENSOR_CHAMBER_WIDTH SENSOR_PCB_SIZE
    rw [abs_sub_lt_iff]
    norm_num
  · unfold speed_multiplier_warning
    rw [decide_eq_false_iff_not]
    exact not_lt.mpr hm

/-! ## Snap-fit rows (src/manifold_design.py lines 350-448)

add_male_snap_fit and add_female_snap_fit both place a periodic row of
features along each edge: tab_spacing = 60 mm, count
max(2, int(edge_length / tab_spacing)), the i-th feature centred at
-edge_length/2 + (i + 0.5) * (edge_length / count), at the given height. -/

def tab_spacing : ℚ := 60

/-- Feature count used by add_male_snap_fit for an edge of the given length. -/
def male_tab_count (edge : ℚ) : ℤ := max 2 (pyInt (edge / tab_spacing))

/-- Feature count used by add_female_snap_fit for an edge of the given length. -/
def female_slot_count (edge : ℚ) : ℤ := max 2 (pyInt (edge / tab_spacing))

/-- Centres (position along the edge, placement height) of the male tabs
add_male_snap_fit stamps along one edge. -/
def male_tab_row (edge at_height : ℚ) : List (ℚ × ℚ) :=
  (List.range (male_tab_count edge).toNat).map
    (fun (i : ℕ) => (-edge/2 + ((i : ℚ) + 1/2) * (edge / ((male_tab_count edge : ℤ) : ℚ)), at_height))

/-- Centres (position along the edge, placement height) of the female slots
add_female_snap_fit cuts along one edge. -/
def female_slot_row (edge at_height : ℚ) : List (ℚ × ℚ) :=
  (List.range (female_slot_count edge).toNat).map
    (fun (i : ℕ) => (-edge/2 + ((i : ℚ) + 1/2) * (edge / ((female_slot_count edge : ℤ) : ℚ)), at_height))

/-- Python's int() truncates toward zero, but under max 2 it agrees with
the floor that the spec's count formula uses. -/
lemma max_two_pyInt_eq_max_two_floor (q : ℚ) : max 2 (pyInt q) = max 2 ⌊q⌋ := by
  unfold pyInt
  split
  · next h =>
    have h1 : ⌊q⌋ ≤ 0 := Int.floor_nonpos h.le
    have h2 : (0:ℤ) ≤ ⌊-q⌋ := Int.floor_nonneg.mpr (by linarith)
    omega
  · rfl

/-- C3: for every edge length and placement height given identically to the
male-tab generator and the female-slot generator, both produce the same
feature count, equal to max(2, floor(edge / 60)), and the same feature
centre positions, the i-th centre at -edge/2 + (i + 0.5) * (edge / count). -/
theorem c3_male_female_rows_agree (edge at_height : ℚ) :
    male_tab_row edge at_height = female_slot_row edge at_height ∧
    male_tab_count edge = female_slot_count edge ∧
    male_tab_count edge = max 2 ⌊edge / 60⌋ ∧
    (male_tab_row edge at_height).length = (male_tab_count edge).toNat ∧
    ∀ (i : ℕ) (hi : i < (male_tab_row edge at_height).length),
      (male_tab_row edge at_height).get ⟨i, hi⟩ =
        (-edge/2 + ((i : ℚ) + 1/2) * (edge / ((male_tab_count edge : ℤ) : ℚ)), at_height) := by
  refine ⟨rfl, rfl, ?_, ?_, ?_⟩
  · unfold male_tab_count tab_spacing
    exact max_two_pyInt_eq_max_two_floor _
  · simp [male_tab_row]
  · intro i hi
    unfold male_tab_row
    rw [List.get_eq_getElem, List.getElem_map, List.getElem_range]

/-- C3 witness at edge length 200 and height 5: three features per row, the
middle one centred at the origin. -/
theorem c3_witness :
    male_tab_row 200 5 = female_slot_row 200 5 ∧
    male_tab_count 200 = 3 ∧
    ((0 : ℚ), (5 : ℚ)) ∈ male_tab_row 200 5 := by
  obtain ⟨h1, _, h3, h4, h5⟩ := c3_male_female_rows_agree 200 5
  have hc : male_tab_count 200 = 3 := by
    rw [h3]
    norm_num
  refine ⟨h1, hc, ?_⟩
  have hlen : 1 < (male_tab_row 200 5).length := by
    rw [h4, hc]
    norm_num
  have hv : (male_tab_row 200 5).get ⟨1, hlen⟩ = ((0 : ℚ), (5 : ℚ)) := by
    rw [h5 1 hlen, hc]
    norm_num
  rw [← hv]
  exact List.get_mem _ 1 hlen

/-! ## Transition-duct quadrant (src/manifold_design.py lines 600-816)

The shipped quadrant builder makes one symmetric piece occupying the
x >= 0, y >= 0 quarter of the base footprint (x_min = 0,
x_max = plate_half_width, joint overlap not applied at the bottom,
outer_trim = 0); the other three positions are obtained by rotating the
printed piece about the Z axis. -/

def base_width : ℚ := MANIFOLD_BASE_SIZE - 2 * MANIFOLD_OUTER_MARGIN
def base_depth : ℚ := MANIFOLD_BASE_SIZE - 2 * MANIFOLD_OUTER_MARGIN
def sensor_width : ℚ := SENSOR_CHAMBER_WIDTH + 2 * WALL_THICKNESS
def joint_width : ℚ := 4
def outer_trim : ℚ := 0
def plate_half_width : ℚ := base_width / 2
def plate_half_depth : ℚ := base_depth / 2
def quad_x_min : ℚ := 0
def quad_x_max : ℚ := plate_half_width
def quad_y_min : ℚ := 0
def quad_y_max : ℚ := plate_half_depth
def quadrant_width : ℚ := quad_x_max - quad_x_min
def quadrant_depth : ℚ := quad_y_max - quad_y_min
def y_center : ℚ := (quad_y_min + quad_y_max) / 2
def top_half : ℚ := sensor_width / 2
def top_x_min : ℚ := -joint_width / 2
def top_x_max : ℚ := top_half
def top_y_min : ℚ := -joint_width / 2
def top_y_max : ℚ := top_half
def top_quadrant_width : ℚ := top_x_max - top_x_min
def top_quadrant_depth : ℚ := top_y_max - top_y_min

lemma quadrant_width_eval : quadrant_width = 180 := by
  norm_num [quadrant_width, quad_x_max, quad_x_min, plate_half_width, base_width,
    MANIFOLD_BASE_SIZE, MANIFOLD_OUTER_MARGIN]

lemma quadrant_depth_eval : quadrant_depth = 180 := by
  norm_num [quadrant_depth, quad_y_max, quad_y_min, plate_half_depth, base_depth,
    MANIFOLD_BASE_SIZE, MANIFOLD_OUTER_MARGIN]

lemma top_quadrant_width_eval : top_quadrant_width = 26 := by
  norm_num [top_quadrant_width, top_x_max, top_x_min, top_half, sensor_width, joint_width,
    SENSOR_CHAMBER_WIDTH, WALL_THICKNESS]

lemma top_quadrant_depth_eval : top_quadrant_depth = 26 := by
  norm_num [top_quadrant_depth, top_y_max, top_y_min, top_half, sensor_width, joint_width,
    SENSOR_CHAMBER_WIDTH, WALL_THICKNESS]

/-- Snap-fit rows on the quadrant's bottom outer edges use
max(2, int(quadrant_width / tab_spacing)) features per edge. -/
def num_tabs_bottom : ℤ := max 2 (pyInt (quadrant_width / tab_spacing))

/-- Snap-fit rows on the quadrant's top outer edges use
max(1, int(top_quadrant_width / tab_spacing)) features per edge. -/
def num_tabs_top : ℤ := max 1 (pyInt (top_quadrant_width / tab_spacing))

lemma num_tabs_bottom_eval : num_tabs_bottom = 3 := by
  unfold num_tabs_bottom pyInt tab_spacing
  rw [quadrant_width_eval, if_neg (by norm_num)]
  norm_num

lemma num_tabs_top_eval : num_tabs_top = 1 := by
  unfold num_tabs_top pyInt tab_spacing
  rw [top_quadrant_width_eval, if_neg (by norm_num)]
  norm_num

/-! ## Quadrant mating-feature centres (src/manifold_design.py lines 748-814) -/

def closed_height : ℚ := TRANSITION_LENGTH / 2
def num_bolts : ℕ := 2

/-- Z heights of the bolt holes: (i + 1) * total_height / (num_bolts + 1). -/
def bolt_z (i : ℕ) : ℚ := ((i : ℚ) + 1) * closed_height / ((num_bolts : ℚ) + 1)

/-- Centres of the M5 bolt-clearance holes cut on the two interior edges. -/
def bolt_hole_centers : List (ℚ × ℚ × ℚ) :=
  (List.range num_bolts).map (fun (i : ℕ) => ((0 : ℚ), y_center, bolt_z i)) ++
  (List.range num_bolts).map (fun (i : ℕ) => (y_center, (0 : ℚ), bolt_z i))

/-- Centres of the female snap-fit slots cut on the two bottom outer edges. -/
def bottom_slot_centers : List (ℚ × ℚ × ℚ) :=
  (List.range num_tabs_bottom.toNat).map
    (fun (i : ℕ) =>
      (quad_x_max, quad_y_min + ((i : ℚ) + 1/2) * (quadrant_depth / (num_tabs_bottom : ℚ)), (0 : ℚ))) ++
  (List.range num_tabs_bottom.toNat).map
    (fun (i : ℕ) =>
      (quad_x_min + ((i : ℚ) + 1/2) * (quadrant_width / (num_tabs_bottom : ℚ)), quad_y_max, (0 : ℚ)))

/-- Centres of the male snap-fit tabs added on the two top outer edges. -/
def top_tab_centers : List (ℚ × ℚ × ℚ) :=
  (List.range num_tabs_top.toNat).map
    (fun (i : ℕ) =>
      (top_x_max, top_y_min + ((i : ℚ) + 1/2) * (top_quadrant_depth / (num_tabs_top : ℚ)), TRANSITION_LENGTH)) ++
  (List.range num_tabs_top.toNat).map
    (fun (i : ℕ) =>
      (top_x_min + ((i : ℚ) + 1/2) * (top_quadrant_width / (num_tabs_top : ℚ)), top_y_max, TRANSITION_LENGTH))

lemma bolt_hole_centers_eval :
    bolt_hole_centers = [(0, 90, 25), (0, 90, 50), (90, 0, 25), (90, 0, 50)] := by
  norm_num [bolt_hole_centers, num_bolts, bolt_z, y_center, quad_y_min, quad_y_max,
    plate_half_depth, base_depth, closed_height, TRANSITION_LENGTH, MANIFOLD_BASE_SIZE,
    MANIFOLD_OUTER_MARGIN, List.range_succ]

lemma bottom_slot_centers_eval :
    bottom_slot_centers =
      [(180, 30, 0), (180, 90, 0), (180, 150, 0), (30, 180, 0), (90, 180, 0), (150, 180, 0)] := by
  unfold bottom_slot_centers
  rw [num_tabs_bottom_eval, quadrant_width_eval, quadrant_depth_eval]
  rw [show (3 : ℤ).toNat = 3 from rfl]
  norm_num [quad_x_min, quad_x_max, quad_y_min, quad_y_max, plate_half_width, plate_half_depth,
    base_width, base_depth, MANIFOLD_BASE_SIZE, MANIFOLD_OUTER_MARGIN, List.range_succ]

lemma top_tab_centers_eval :
    top_tab_centers = [(24, 11, 150), (11, 24, 150)] := by
  unfold top_tab_centers
  rw [num_tabs_top_eval, top_quadrant_width_eval, top_quadrant_depth_eval]
  rw [show (1 : ℤ).toNat = 1 from rfl]
  norm_num [top_x_min, top_x_max, top_y_min, top_y_max, top_half, sensor_width, joint_width,
    SENSOR_CHAMBER_WIDTH, WALL_THICKNESS, TRANSITION_LENGTH, List.range_succ]

/-- C5 counterexample: the snap-fit rows stamped on the quadrant's top outer
edges use max(1, int(edge / 60)) features, and with the shipped top edge
length of 26 mm each top row contains exactly 1 feature, not at least 2. -/
theorem c5_top_rows_have_one_tab :
    num_tabs_top = 1 ∧ ¬ (2 ≤ num_tabs_top) ∧ (top_tab_centers.length = 2) := by
  refine ⟨num_tabs_top_eval, ?_, ?_⟩
  · rw [num_tabs_top_eval]
    decide
  · rw [top_tab_centers_eval]
    rfl

/-- C5 (amended): rows placed by add_male_snap_fit and add_female_snap_fit,
and the quadrant's bottom-edge rows, always contain at least 2 features; the
quadrant's top-edge rows instead use max(1, int(edge / 60)) and so are only
guaranteed 1 feature, and contain exactly 1 at the shipped parameters. -/
theorem c5_min_feature_counts :
    (∀ edge : ℚ, 2 ≤ male_tab_count edge) ∧
    (∀ edge : ℚ, 2 ≤ female_slot_count edge) ∧
    2 ≤ num_tabs_bottom ∧
    1 ≤ num_tabs_top ∧
    num_tabs_top = 1 := by
  refine ⟨fun edge => le_max_left _ _, fun edge => le_max_left _ _,
    le_max_left _ _, le_max_left _ _, num_tabs_top_eval⟩

/-! ## Rotational self-consistency of the symmetric quadrant (C2)

A quadrant placed at position (is_right, is_back) mirrors the canonical
(right, back) layout through the centerlines: its feature coordinates are
the canonical ones with the signs the placement descriptor selects
(the sign conventions of create_transition_section_quadrant in
src/cadquery_version/manifold_design.py).  The shipped single printed
piece is instead placed by rotating about Z.  C2 asserts the two agree. -/

def rot_z_90 (p : ℚ × ℚ × ℚ) : ℚ × ℚ × ℚ := (-p.2.1, p.1, p.2.2)

def rot_z_180 (p : ℚ × ℚ × ℚ) : ℚ × ℚ × ℚ := (-p.1, -p.2.1, p.2.2)

def rot_z_270 (p : ℚ × ℚ × ℚ) : ℚ × ℚ × ℚ := (p.2.1, -p.1, p.2.2)

/-- Feature position expected at placement (is_right, is_back), obtained by
flipping the canonical (right, back) coordinates through the centerlines. -/
def expected_at (is_right is_back : Bool) (p : ℚ × ℚ × ℚ) : ℚ × ℚ × ℚ :=
  ((if is_right then p.1 else -p.1), (if is_back then p.2.1 else -p.2.1), p.2.2)

/-- Two feature lists describe the same set of positions. -/
def same_feature_set (L M : List (ℚ × ℚ × ℚ)) : Prop := ∀ p, p ∈ L ↔ p ∈ M

/-- C2: rotating the built symmetric quadrant's bolt-hole centres and
snap-fit tab/slot centres by 90, 180 and 270 degrees about Z reproduces
exactly (hence within floating-point tolerance) the positions expected at
the other three quadrant placements. -/
theorem c2_rotations_match_placements :
    (same_feature_set (bolt_hole_centers.map rot_z_90)
        (bolt_hole_centers.map (expected_at false true)) ∧
      same_feature_set (bolt_hole_centers.map rot_z_180)
        (bolt_hole_centers.map (expected_at false false)) ∧
      same_feature_set (bolt_hole_centers.map rot_z_270)
        (bolt_hole_centers.map (expected_at true false))) ∧
    (same_feature_set (bottom_slot_centers.map rot_z_90)
        (bottom_slot_centers.map (expected_at false true)) ∧
      same_feature_set (bottom_slot_centers.map rot_z_180)
        (bottom_slot_centers.map (expected_at false false)) ∧
      same_feature_set (bottom_slot_centers.map rot_z_270)
        (bottom_slot_centers.map (expected_at true false))) ∧
    (same_feature_set (top_tab_centers.map rot_z_90)
        (top_tab_centers.map (expected_at false true)) ∧
      same_feature_set (top_tab_centers.map rot_z_180)
        (top_tab_centers.map (expected_at false false)) ∧
      same_feature_set (top_tab_centers.map rot_z_270)
        (top_tab_centers.map (expected_at true false))) := by
  refine ⟨⟨?_, ?_, ?_⟩, ⟨?_, ?_, ?_⟩, ⟨?_, ?_, ?_⟩⟩ <;>
    intro p <;>
    simp only [bolt_hole_centers_eval, bottom_slot_centers_eval, top_tab_centers_eval,
      rot_z_90, rot_z_180, rot_z_270, expected_at, List.map_cons, List.map_nil,
      List.mem_cons, List.not_mem_nil, or_false] <;>
    norm_num <;>
    tauto

/-- C2 witness: a concrete rotated slot centre, obtained through the claim's
set equality, lands at the left-edge position the back-left placement
expects. -/
theorem c2_witness :
    ((-180 : ℚ), (30 : ℚ), (0 : ℚ)) ∈ bottom_slot_centers.map rot_z_90 := by
  apply (c2_rotations_match_placements.2.1.1 ((-180 : ℚ), (30 : ℚ), (0 : ℚ))).mpr
  rw [bottom_slot_centers_eval]
  norm_num [expected_at]

/-! ## Reassembly of the four quadrant bottom rectangles (C1)

qx_min and qx_max translate the quadrant-extent arithmetic of
create_transition_section_quadrant (src/cadquery_version/manifold_design.py
lines 485-510 and src/solidpython_version/manifold_design.py lines
126-149): start from the signed half extents, trim the outer edge, then
push the interior edge out by half the joint overlap.  The shipped
src/manifold_design.py quadrant has outer_trim = 0 and applies no joint
offset at the bottom, so its placed bottom rectangles are these extents
with the joint offsets cancelled (joint = 0). -/

def qx_min (is_right : Bool) (half trim joint : ℚ) : ℚ :=
  (if is_right then 0 else -half + trim) - (if is_right then joint / 2 else 0)

def qx_max (is_right : Bool) (half trim joint : ℚ) : ℚ :=
  (if is_right then half - trim else 0) + (if is_right then 0 else joint / 2)

/-- Membership in the offset-cancelled bottom rectangle of the quadrant at
placement (is_right, is_back), with the shipped outer_trim = 0. -/
def in_reassembled_bottom_rect (is_right is_back : Bool) (x y : ℚ) : Prop :=
  qx_min is_right plate_half_width outer_trim 0 ≤ x ∧
  x ≤ qx_max is_right plate_half_width outer_trim 0 ∧
  qx_min is_back plate_half_depth outer_trim 0 ≤ y ∧
  y ≤ qx_max is_back plate_half_depth outer_trim 0

/-- Membership in the full base rectangle of side
MANIFOLD_BASE_SIZE - 2 * MANIFOLD_OUTER_MARGIN. -/
def in_full_base_rect (x y : ℚ) : Prop :=
  -plate_half_width ≤ x ∧ x ≤ plate_half_width ∧
  -plate_half_depth ≤ y ∧ y ≤ plate_half_depth

lemma in_reassembled_bottom_rect_iff (is_right is_back : Bool) (x y : ℚ) :
    in_reassembled_bottom_rect is_right is_back x y ↔
      (cond is_right (0 ≤ x ∧ x ≤ 180) (-180 ≤ x ∧ x ≤ 0) ∧
       cond is_back (0 ≤ y ∧ y ≤ 180) (-180 ≤ y ∧ y ≤ 0)) := by
  cases is_right <;> cases is_back <;>
    norm_num [in_reassembled_bottom_rect, qx_min, qx_max, outer_trim, plate_half_width,
      plate_half_depth, base_width, base_depth, MANIFOLD_BASE_SIZE, MANIFOLD_OUTER_MARGIN] <;>
    tauto

/-- C1: reassembling the four offset-cancelled quadrant bottom rectangles
reconstructs the full base rectangle of side
MANIFOLD_BASE_SIZE - 2 * MANIFOLD_OUTER_MARGIN exactly: every point of the
base rectangle is covered by some placement (no gap), and two different
placements share only centerline points (zero-width overlap, within the
declared 4 mm joint overlap). -/
theorem c1_reassembly_exact (x y : ℚ) :
    (in_full_base_rect x y ↔ ∃ is_right is_back : Bool,
      in_reassembled_bottom_rect is_right is_back x y) ∧
    (∀ r b r' b' : Bool, in_reassembled_bottom_rect r b x y →
      in_reassembled_bottom_rect r' b' x y →
      (r ≠ r' → x = 0) ∧ (b ≠ b' → y = 0)) := by
  have hw : plate_half_width = 180 := by
    norm_num [plate_half_width, base_width, MANIFOLD_BASE_SIZE, MANIFOLD_OUTER_MARGIN]
  have hd : plate_half_depth = 180 := by
    norm_num [plate_half_depth, base_depth, MANIFOLD_BASE_SIZE, MANIFOLD_OUTER_MARGIN]
  constructor
  · constructor
    · rintro ⟨h1, h2, h3, h4⟩
      rw [hw] at h1 h2
      rw [hd] at h3 h4
      by_cases hx : 0 ≤ x <;> by_cases hy : 0 ≤ y
      · exact ⟨true, true, (in_reassembled_bottom_rect_iff _ _ _ _).mpr
          ⟨⟨hx, h2⟩, hy, h4⟩⟩
      · exact ⟨true, false, (in_reassembled_bottom_rect_iff _ _ _ _).mpr
          ⟨⟨hx, h2⟩, h3, le_of_not_le hy⟩⟩
      · exact ⟨false, true, (in_reassembled_bottom_rect_iff _ _ _ _).mpr
          ⟨⟨h1, le_of_not_le hx⟩, hy, h4⟩⟩
      · exact ⟨false, false, (in_reassembled_bottom_rect_iff _ _ _ _).mpr
          ⟨⟨h1, le_of_not_le hx⟩, h3, le_of_not_le hy⟩⟩
    · rintro ⟨r, b, h⟩
      rw [in_reassembled_bottom_rect_iff] at h
      obtain ⟨hxr, hyb⟩ := h
      unfold in_full_base_rect
      rw [hw, hd]
      cases r <;> cases b <;>
        simp only [Bool.cond_true, Bool.cond_false] at hxr hyb <;>
        exact ⟨by linarith [hxr.1, hxr.2], by linarith [hxr.1, hxr.2],
          by linarith [hyb.1, hyb.2], by linarith [hyb.1, hyb.2]⟩
  · intro r b r' b' h h'
    rw [in_reassembled_bottom_rect_iff] at h h'
    obtain ⟨hxr, hyb⟩ := h
    obtain ⟨hxr', hyb'⟩ := h'
    constructor
    · intro hne
      cases r <;> cases r'
      · exact absurd rfl hne
      · simp only [Bool.cond_true, Bool.cond_false] at hxr hxr'
        linarith [hxr.1, hxr.2, hxr'.1, hxr'.2]
      · simp only [Bool.cond_true, Bool.cond_false] at hxr hxr'
        linarith [hxr.1, hxr.2, hxr'.1, hxr'.2]
      · exact absurd rfl hne
    · intro hne
      cases b <;> cases b'
      · exact absurd rfl hne
      · simp only [Bool.cond_true, Bool.cond_false] at hyb hyb'
        linarith [hyb.1, hyb.2, hyb'.1, hyb'.2]
      · simp only [Bool.cond_true, Bool.cond_false] at hyb hyb'
        linarith [hyb.1, hyb.2, hyb'.1, hyb'.2]
      · exact absurd rfl hne

/-- C1 witness: the interior point (30, -40) of the base rectangle is covered
by some placement, and a point on the x centerline shared by the left and
right front placements indeed has x = 0. -/
theorem c1_witness :
    (∃ is_right is_back : Bool, in_reassembled_bottom_rect is_right is_back 30 (-40)) ∧
    ((0 : ℚ) = 0) := by
  constructor
  · apply (c1_reassembly_exact 30 (-40)).1.mp
    unfold in_full_base_rect
    norm_num [plate_half_width, plate_half_depth, base_width, base_depth,
      MANIFOLD_BASE_SIZE, MANIFOLD_OUTER_MARGIN]
  · have h1 : in_reassembled_bottom_rect true true 0 40 := by
      rw [in_reassembled_bottom_rect_iff]
      norm_num
    have h2 : in_reassembled_bottom_rect false true 0 40 := by
      rw [in_reassembled_bottom_rect_iff]
      norm_num
    exact ((c1_reassembly_exact 0 40).2 true true false true h1 h2).1 (by simp)

/-! ## Snap-fit tab and slot cross-sections (C4)

create_snap_tab (src/manifold_design.py lines 386-399) draws, on an XZ
workplane, the closed profile through
(0, h), (0, h+SNAP_FIT_HEIGHT), (SNAP_FIT_DEPTH, h+SNAP_FIT_HEIGHT-SNAP_FIT_TAPER),
(SNAP_FIT_DEPTH, h) and extrudes it SNAP_FIT_WIDTH in both directions.
create_snap_slot (lines 436-448) draws the profile through
(-c, h), (-c, h+SNAP_FIT_HEIGHT),
(SNAP_FIT_DEPTH+c, h+SNAP_FIT_HEIGHT-SNAP_FIT_TAPER+c), (SNAP_FIT_DEPTH+c, h)
with c = SNAP_FIT_CLEARANCE and extrudes it SNAP_FIT_WIDTH + 2c in both
directions.  A point is inside such a convex quadrilateral, whose
vertices are listed clockwise, iff it lies on the non-positive side of
the cross product of every directed edge. -/

def edge_side (a b p : ℚ × ℚ) : ℚ :=
  (b.1 - a.1) * (p.2 - a.2) - (b.2 - a.2) * (p.1 - a.1)

/-- Membership in the male tab's profile (coordinates: u outward from the
wall, v vertical), from the vertex list of create_snap_tab. -/
def in_tab_profile (h : ℚ) (u v : ℚ) : Prop :=
  edge_side (0, h) (0, h + SNAP_FIT_HEIGHT) (u, v) ≤ 0 ∧
  edge_side (0, h + SNAP_FIT_HEIGHT)
    (SNAP_FIT_DEPTH, h + SNAP_FIT_HEIGHT - SNAP_FIT_TAPER) (u, v) ≤ 0 ∧
  edge_side (SNAP_FIT_DEPTH, h + SNAP_FIT_HEIGHT - SNAP_FIT_TAPER)
    (SNAP_FIT_DEPTH, h) (u, v) ≤ 0 ∧
  edge_side (SNAP_FIT_DEPTH, h) (0, h) (u, v) ≤ 0

/-- Membership in the female slot's profile, from the vertex list of
create_snap_slot. -/
def in_slot_profile (h : ℚ) (u v : ℚ) : Prop :=
  edge_side (-SNAP_FIT_CLEARANCE, h) (-SNAP_FIT_CLEARANCE, h + SNAP_FIT_HEIGHT) (u, v) ≤ 0 ∧
  edge_side (-SNAP_FIT_CLEARANCE, h + SNAP_FIT_HEIGHT)
    (SNAP_FIT_DEPTH + SNAP_FIT_CLEARANCE,
      h + SNAP_FIT_HEIGHT - SNAP_FIT_TAPER + SNAP_FIT_CLEARANCE) (u, v) ≤ 0 ∧
  edge_side (SNAP_FIT_DEPTH + SNAP_FIT_CLEARANCE,
      h + SNAP_FIT_HEIGHT - SNAP_FIT_TAPER + SNAP_FIT_CLEARANCE)
    (SNAP_FIT_DEPTH + SNAP_FIT_CLEARANCE, h) (u, v) ≤ 0 ∧
  edge_side (SNAP_FIT_DEPTH + SNAP_FIT_CLEARANCE, h) (-SNAP_FIT_CLEARANCE, h) (u, v) ≤ 0

/-- Membership in the extruded male tab (u outward, y along the edge,
v vertical): tab half-extent along the edge is SNAP_FIT_WIDTH. -/
def in_tab_solid (h : ℚ) (u y v : ℚ) : Prop :=
  in_tab_profile h u v ∧ -SNAP_FIT_WIDTH ≤ y ∧ y ≤ SNAP_FIT_WIDTH

/-- Membership in the extruded female slot: half-extent along the edge is
SNAP_FIT_WIDTH + 2 * SNAP_FIT_CLEARANCE. -/
def in_slot_solid (h : ℚ) (u y v : ℚ) : Prop :=
  in_slot_profile h u v ∧
  -(SNAP_FIT_WIDTH + 2 * SNAP_FIT_CLEARANCE) ≤ y ∧
  y ≤ SNAP_FIT_WIDTH + 2 * SNAP_FIT_CLEARANCE

/-- C4 counterexample: the slot is not the tab's trapezoid enlarged uniformly
by SNAP_FIT_CLEARANCE on all sides.  (1, 0) lies on the bottom edge of the
tab profile at base height 0, so a uniform enlargement by the 0.3
clearance would contain (1, -0.3); the slot does not - its bottom edge is
flush with the tab's, with zero margin below. -/
theorem c4_not_uniformly_enlarged :
    in_tab_profile 0 1 0 ∧ in_slot_profile 0 1 0 ∧
    ¬ in_slot_profile 0 1 (-(3/10)) := by
  refine ⟨?_, ?_, ?_⟩
  · norm_num [in_tab_profile, edge_side, SNAP_FIT_HEIGHT, SNAP_FIT_DEPTH, SNAP_FIT_TAPER]
  · norm_num [in_slot_profile, edge_side, SNAP_FIT_HEIGHT, SNAP_FIT_DEPTH, SNAP_FIT_TAPER,
      SNAP_FIT_CLEARANCE]
  · norm_num [in_slot_profile, edge_side, SNAP_FIT_HEIGHT, SNAP_FIT_DEPTH, SNAP_FIT_TAPER,
      SNAP_FIT_CLEARANCE]

/-- C4 (amended): for every placement height the female slot does contain the
male tab; the enlargement is by exactly SNAP_FIT_CLEARANCE on the left and
right sides of the profile, the slot's top is flattened at h + SNAP_FIT_HEIGHT
(the taper plus the clearance cancel), the bottom edge is flush with the
tab's (zero margin), and along the edge direction the slot's half-extent
exceeds the tab's by 2 * SNAP_FIT_CLEARANCE. -/
theorem c4_slot_contains_tab (h u y v : ℚ) :
    (in_tab_solid h u y v → in_slot_solid h u y v) ∧
    (in_slot_profile h u v ↔
      (-SNAP_FIT_CLEARANCE ≤ u ∧ u ≤ SNAP_FIT_DEPTH + SNAP_FIT_CLEARANCE ∧
       h ≤ v ∧ v ≤ h + SNAP_FIT_HEIGHT)) ∧
    (SNAP_FIT_WIDTH + 2 * SNAP_FIT_CLEARANCE) - SNAP_FIT_WIDTH =
      2 * SNAP_FIT_CLEARANCE := by
  have hslot : in_slot_profile h u v ↔
      (-SNAP_FIT_CLEARANCE ≤ u ∧ u ≤ SNAP_FIT_DEPTH + SNAP_FIT_CLEARANCE ∧
       h ≤ v ∧ v ≤ h + SNAP_FIT_HEIGHT) := by
    unfold in_slot_profile edge_side SNAP_FIT_HEIGHT SNAP_FIT_DEPTH SNAP_FIT_TAPER
      SNAP_FIT_CLEARANCE
    constructor
    · rintro ⟨h1, h2, h3, h4⟩
      refine ⟨by linarith, by linarith, by linarith, by linarith⟩
    · rintro ⟨h1, h2, h3, h4⟩
      refine ⟨by linarith, by linarith, by linarith, by linarith⟩
  have htab : in_tab_profile h u v →
      (0 ≤ u ∧ u ≤ SNAP_FIT_DEPTH ∧ h ≤ v ∧ v ≤ h + SNAP_FIT_HEIGHT) := by
    unfold in_tab_profile edge_side SNAP_FIT_HEIGHT SNAP_FIT_DEPTH SNAP_FIT_TAPER
    rintro ⟨h1, h2, h3, h4⟩
    norm_num at h1 h2 h3 h4
    exact ⟨by linarith, by linarith, by linarith, by linarith⟩
  have hC : SNAP_FIT_CLEARANCE = 3/10 := rfl
  have hW : SNAP_FIT_WIDTH = 6 := rfl
  refine ⟨?_, hslot, by ring⟩
  rintro ⟨hp, hy1, hy2⟩
  obtain ⟨t1, t2, t3, t4⟩ := htab hp
  rw [hW] at hy1 hy2
  refine ⟨hslot.mpr ⟨?_, ?_, t3, t4⟩, ?_, ?_⟩
  · rw [hC]
    linarith
  · rw [hC]
    linarith
  · rw [hW, hC]
    linarith
  · rw [hW, hC]
    linarith

/-- C4 witness: applying the containment at height 10 to the tab point
(1, 2, 12) and the slot characterization at the slot's top-left corner. -/
theorem c4_witness :
    in_slot_solid 10 1 2 12 ∧ in_slot_profile 10 (-(3/10)) 18 := by
  constructor
  · apply (c4_slot_contains_tab 10 1 2 12).1
    refine ⟨?_, ?_, ?_⟩
    · norm_num [in_tab_profile, edge_side, SNAP_FIT_HEIGHT, SNAP_FIT_DEPTH, SNAP_FIT_TAPER]
    · norm_num [SNAP_FIT_WIDTH]
    · norm_num [SNAP_FIT_WIDTH]
  · apply (c4_slot_contains_tab 10 (-(3/10)) 0 18).2.1.mpr
    norm_num [SNAP_FIT_CLEARANCE, SNAP_FIT_DEPTH, SNAP_FIT_HEIGHT]

/-! ## Degenerate inner-cutout guard (C7)

create_transition_quadrant (src/solidpython_version/manifold_design.py
lines 125-176) and create_transition_section_quadrant
(src/cadquery_version/manifold_design.py lines 483-543) compute the
bottom plate of a quadrant over the CABINET-sized base (550 mm minus
margins), clamp the inner-cutout rectangle to the sealing margin, and cut
it out only when both its width and depth are strictly positive.  The
trim and margin constants are taken as parameters here so the guard can
be exercised; the shipped values are OUTER_TRIM = 38 and
BOTTOM_PLATE_MARGIN = 15. -/

def CABINET_WIDTH : ℚ := 550

def sp_base_width : ℚ := CABINET_WIDTH - 2 * MANIFOLD_OUTER_MARGIN

def sp_half : ℚ := sp_base_width / 2

def JOINT_OVERLAP : ℚ := 4

/-- Quadrant bottom extents of the solidpython/cadquery variant. -/
def sp_x_min (is_right : Bool) (trim : ℚ) : ℚ := qx_min is_right sp_half trim JOINT_OVERLAP

def sp_x_max (is_right : Bool) (trim : ℚ) : ℚ := qx_max is_right sp_half trim JOINT_OVERLAP

/-- Inner-cutout lower bound: max(x_min, -base_width/2 + margin). -/
def inner_min (is_right : Bool) (trim margin : ℚ) : ℚ :=
  max (sp_x_min is_right trim) (-sp_base_width / 2 + margin)

/-- Inner-cutout upper bound: min(x_max, base_width/2 - margin). -/
def inner_max (is_right : Bool) (trim margin : ℚ) : ℚ :=
  min (sp_x_max is_right trim) (sp_base_width / 2 - margin)

/-- The builders cut the centre opening only when the clamped inner rectangle
has strictly positive width and depth. -/
def cutout_made (is_right is_back : Bool) (trim margin : ℚ) : Prop :=
  inner_min is_right trim margin < inner_max is_right trim margin ∧
  inner_min is_back trim margin < inner_max is_back trim margin

/-- The quadrant's full bottom-plate rectangle. -/
def in_quadrant_plate_rect (is_right is_back : Bool) (trim : ℚ) (x y : ℚ) : Prop :=
  sp_x_min is_right trim ≤ x ∧ x ≤ sp_x_max is_right trim ∧
  sp_x_min is_back trim ≤ y ∧ y ≤ sp_x_max is_back trim

/-- The bottom plate as built: the plate rectangle, minus the inner cutout
when (and only when) the guard fires. -/
def in_bottom_plate (is_right is_back : Bool) (trim margin : ℚ) (x y : ℚ) : Prop :=
  in_quadrant_plate_rect is_right is_back trim x y ∧
  ¬ (cutout_made is_right is_back trim margin ∧
     inner_min is_right trim margin < x ∧ x < inner_max is_right trim margin ∧
     inner_min is_back trim margin < y ∧ y < inner_max is_back trim margin)

/-- C7: whenever the computed inner-cutout rectangle has non-positive width
or depth, no cutout is made and the quadrant's bottom plate is exactly its
full solid rectangle (and the builder, a total function, raises no error). -/
theorem c7_degenerate_cutout_guard (is_right is_back : Bool) (trim margin : ℚ)
    (hdeg : inner_max is_right trim margin - inner_min is_right trim margin ≤ 0 ∨
      inner_max is_back trim margin - inner_min is_back trim margin ≤ 0) :
    ∀ x y : ℚ, in_bottom_plate is_right is_back trim margin x y ↔
      in_quadrant_plate_rect is_right is_back trim x y := by
  intro x y
  have hnc : ¬ cutout_made is_right is_back trim margin := by
    rintro ⟨h1, h2⟩
    rcases hdeg with h | h
    · linarith
    · linarith
  constructor
  · rintro ⟨hq, _⟩
    exact hq
  · intro hq
    exact ⟨hq, fun hc => hnc hc.1⟩

/-- C7 witness: quadrant (is_right = false, is_back = false) with the shipped
trim 38 and a 256 mm sealing margin has inner width -2 <= 0, and its bottom
plate is then the full solid rectangle, e.g. at the origin. -/
theorem c7_witness :
    (inner_max false 38 256 - inner_min false 38 256 ≤ 0) ∧
    in_bottom_plate false false 38 256 0 0 := by
  have hdeg : inner_max false 38 256 - inner_min false 38 256 ≤ 0 := by
    norm_num [inner_max, inner_min, sp_x_min, sp_x_max, qx_min, qx_max, sp_half,
      sp_base_width, CABINET_WIDTH, MANIFOLD_OUTER_MARGIN, JOINT_OVERLAP,
      max_def, min_def]
  refine ⟨hdeg, ?_⟩
  apply (c7_degenerate_cutout_guard false false 38 256 (Or.inl hdeg) 0 0).mpr
  norm_num [in_quadrant_plate_rect, sp_x_min, sp_x_max, qx_min, qx_max, sp_half,
    sp_base_width, CABINET_WIDTH, MANIFOLD_OUTER_MARGIN, JOINT_OVERLAP]

/-! ## Generation drivers (C8, C9)

generate_all_parts (src/manifold_design.py lines 1011-1169) prints the
speed-multiplier check and print-bed warnings, then runs six sequential
try/except blocks, one per part: each block invokes the part's builder
and exports the result, and on an exception prints the message and falls
through to the next block.  generate_split_base
(src/manifold_design_split.py lines 434-529) first checks that a base
section fits the print bed - printing an ERROR line and returning, with
no part built, when it does not - and otherwise runs three such
try/except blocks.  We model a run as the list of its observable events,
parametrized by the computed dimensions and by an oracle giving the
exception message a part's block raises, if any. -/

inductive PartName where
  | manifoldBase
  | transitionQuadrant
  | sensorChamber
  | fanAdapter
  | intakeTube
  | mountingNut
  | cornerSection
  | edgeSection
  | centerSection
deriving DecidableEq

inductive Ev where
  | warnSpeed : Ev
  | warnBaseSize : Ev
  | warnTransHeight : Ev
  | errSectionsTooLarge : Ev
  | attempt : PartName → Ev
  | exported : PartName → Ev
  | failed : PartName → ℕ → Ev
deriving DecidableEq

/-- One try/except block: the builder is invoked; on an exception the
message is logged and the block ends, otherwise the part is exported. -/
def attempt_part (fail : PartName → Option ℕ) (p : PartName) : List Ev :=
  match fail p with
  | some m => [Ev.attempt p, Ev.failed p m]
  | none => [Ev.attempt p, Ev.exported p]

/-- verify_speed_multiplier's diagnostic output. -/
def speed_warn_events (intake sensor : ℚ) : List Ev :=
  if |intake / sensor - TARGET_SPEED_MULTIPLIER| > 1/2 then [Ev.warnSpeed] else []

/-- The print-bed warnings of generate_all_parts. -/
def bed_warn_events (bw bd tl : ℚ) : List Ev :=
  (if bw > MAX_PRINT_X ∨ bd > MAX_PRINT_Y then [Ev.warnBaseSize] else []) ++
  (if tl > MAX_PRINT_Z then [Ev.warnTransHeight] else [])

/-- Event trace of generate_all_parts. -/
def generate_all_parts (intake sensor bw bd tl : ℚ) (fail : PartName → Option ℕ) : List Ev :=
  speed_warn_events intake sensor ++ bed_warn_events bw bd tl ++
  attempt_part fail PartName.manifoldBase ++
  attempt_part fail PartName.transitionQuadrant ++
  attempt_part fail PartName.sensorChamber ++
  attempt_part fail PartName.fanAdapter ++
  attempt_part fail PartName.intakeTube ++
  attempt_part fail PartName.mountingNut

def main_parts : List PartName :=
  [PartName.manifoldBase, PartName.transitionQuadrant, PartName.sensorChamber,
   PartName.fanAdapter, PartName.intakeTube, PartName.mountingNut]

def split_parts : List PartName :=
  [PartName.cornerSection, PartName.edgeSection, PartName.centerSection]

/-- Event trace of generate_split_base: the section-size check aborts the
run (early return) when a section exceeds the print bed. -/
def generate_split_base (bw bd : ℚ) (fail : PartName → Option ℕ) : List Ev :=
  if bw / 3 ≤ MAX_PRINT_X ∧ bd / 3 ≤ MAX_PRINT_Y then
    attempt_part fail PartName.cornerSection ++
    attempt_part fail PartName.edgeSection ++
    attempt_part fail PartName.centerSection
  else
    [Ev.errSectionsTooLarge]

/-- The parts whose builders a trace invoked, in order. -/
def attempts (t : List Ev) : List PartName :=
  t.filterMap (fun e => match e with | Ev.attempt p => some p | _ => none)

lemma attempts_append (l1 l2 : List Ev) :
    attempts (l1 ++ l2) = attempts l1 ++ attempts l2 := by
  simp [attempts]

lemma attempts_attempt_part (fail : PartName → Option ℕ) (p : PartName) :
    attempts (attempt_part fail p) = [p] := by
  unfold attempt_part attempts
  cases fail p <;> simp

lemma attempts_speed_warn (intake sensor : ℚ) :
    attempts (speed_warn_events intake sensor) = [] := by
  unfold speed_warn_events
  split <;> simp [attempts]

lemma attempts_bed_warn (bw bd tl : ℚ) :
    attempts (bed_warn_events bw bd tl) = [] := by
  unfold bed_warn_events
  rw [attempts_append]
  have h1 : attempts (if bw > MAX_PRINT_X ∨ bd > MAX_PRINT_Y
      then [Ev.warnBaseSize] else []) = [] := by
    split <;> simp [attempts]
  have h2 : attempts (if tl > MAX_PRINT_Z then [Ev.warnTransHeight] else []) = [] := by
    split <;> simp [attempts]
  rw [h1, h2]
  rfl

/-- C8 counterexample: when a base section exceeds the print bed (base
width 760 mm gives 253.3 mm sections), generate_split_base prints its
print-bed diagnostic and invokes no part builder at all, so that
diagnostic does prevent part generation. -/
theorem c8_split_base_aborts :
    attempts (generate_split_base 760 760 (fun _ => none)) = [] ∧
    Ev.errSectionsTooLarge ∈ generate_split_base 760 760 (fun _ => none) := by
  have h : generate_split_base 760 760 (fun _ => none) = [Ev.errSectionsTooLarge] := by
    unfold generate_split_base
    rw [if_neg]
    rintro ⟨h1, _⟩
    rw [MAX_PRINT_X] at h1
    norm_num at h1
  rw [h]
  exact ⟨rfl, List.mem_singleton.mpr rfl⟩

/-- C8 (amended): in generate_all_parts the speed-multiplier and print-bed
diagnostics never block: for every parameter configuration every part
builder is invoked and, absent construction failures, every part is
exported.  In generate_split_base the same holds only when the sections
fit the print bed; its section-size check otherwise aborts the run
before any builder is invoked (see the counterexample), though with the
shipped parameters it does not fire. -/
theorem c8_warnings_never_block :
    (∀ (intake sensor bw bd tl : ℚ) (fail : PartName → Option ℕ),
      attempts (generate_all_parts intake sensor bw bd tl fail) = main_parts) ∧
    (∀ (intake sensor bw bd tl : ℚ), ∀ p ∈ main_parts,
      Ev.exported p ∈ generate_all_parts intake sensor bw bd tl (fun _ => none)) ∧
    (∀ (bw bd : ℚ) (fail : PartName → Option ℕ),
      bw / 3 ≤ MAX_PRINT_X → bd / 3 ≤ MAX_PRINT_Y →
      attempts (generate_split_base bw bd fail) = split_parts) := by
  refine ⟨?_, ?_, ?_⟩
  · intro intake sensor bw bd tl fail
    simp [generate_all_parts, attempts_append, attempts_attempt_part,
      attempts_speed_warn, attempts_bed_warn, main_parts]
  · intro intake sensor bw bd tl p hp
    fin_cases hp <;>
      simp [generate_all_parts, attempt_part, speed_warn_events, bed_warn_events]
  · intro bw bd fail h1 h2
    unfold generate_split_base
    rw [if_pos ⟨h1, h2⟩]
    simp [attempts_append, attempts_attempt_part, split_parts]

/-- C8 witness: with the shipped 360 mm base the split-base section check
passes and all three unique sections are built; and with no failures the
first part of a full run is exported after the warnings. -/
theorem c8_witness :
    attempts (generate_split_base base_width base_depth (fun _ => none)) = split_parts ∧
    Ev.exported PartName.manifoldBase ∈
      generate_all_parts 8659 1738 360 360 150 (fun _ => none) := by
  constructor
  · apply c8_warnings_never_block.2.2
    · norm_num [base_width, MANIFOLD_BASE_SIZE, MANIFOLD_OUTER_MARGIN, MAX_PRINT_X]
    · norm_num [base_depth, MANIFOLD_BASE_SIZE, MANIFOLD_OUTER_MARGIN, MAX_PRINT_Y]
  · exact c8_warnings_never_block.2.1 8659 1738 360 360 150 PartName.manifoldBase
      (by simp [main_parts])

/-- C9: if any one part's construction or export raises, the exception is
logged with its message and every other part's builder still runs: the
invoked-builder list never depends on the failure oracle, and each failing
part contributes a logged failure event.  The same holds for the
split-base generator whenever its section-size guard passes. -/
theorem c9_failures_logged_and_isolated :
    ∀ (intake sensor bw bd tl : ℚ) (fail : PartName → Option ℕ),
      attempts (generate_all_parts intake sensor bw bd tl fail) = main_parts ∧
      (∀ p m, fail p = some m → p ∈ main_parts →
        Ev.failed p m ∈ generate_all_parts intake sensor bw bd tl fail) ∧
      (∀ (bw2 bd2 : ℚ), bw2 / 3 ≤ MAX_PRINT_X → bd2 / 3 ≤ MAX_PRINT_Y →
        attempts (generate_split_base bw2 bd2 fail) = split_parts ∧
        (∀ p m, fail p = some m → p ∈ split_parts →
          Ev.failed p m ∈ generate_split_base bw2 bd2 fail)) := by
  intro intake sensor bw bd tl fail
  refine ⟨?_, ?_, ?_⟩
  · simp [generate_all_parts, attempts_append, attempts_attempt_part,
      attempts_speed_warn, attempts_bed_warn, main_parts]
  · intro p m hf hp
    fin_cases hp <;>
      simp [generate_all_parts, attempt_part, hf, speed_warn_events, bed_warn_events]
  · intro bw2 bd2 h1 h2
    constructor
    · unfold generate_split_base
      rw [if_pos ⟨h1, h2⟩]
      simp [attempts_append, attempts_attempt_part, split_parts]
    · intro p m hf hp
      unfold generate_split_base
      rw [if_pos ⟨h1, h2⟩]
      fin_cases hp <;> simp [attempt_part, hf]

/-- C9 witness: a run in which the sensor chamber's block raises message 7
still invokes all six builders and logs the failure. -/
theorem c9_witness :
    attempts (generate_all_parts 8659 1738 360 360 150
      (fun p => if p = PartName.sensorChamber then some 7 else none)) = main_parts ∧
    Ev.failed PartName.sensorChamber 7 ∈ generate_all_parts 8659 1738 360 360 150
      (fun p => if p = PartName.sensorChamber then some 7 else none) := by
  obtain ⟨h1, h2, _⟩ := c9_failures_logged_and_isolated 8659 1738 360 360 150
    (fun p => if p = PartName.sensorChamber then some 7 else none)
  exact ⟨h1, h2 PartName.sensorChamber 7 (by simp) (by simp [main_parts])⟩

/-! ## Tube grid versus 3x3 base split (C10)

create_split_base_section (src/manifold_design_split.py lines 40-104)
computes the 3x3 grid of tube positions exactly as create_manifold_base
does, then assigns a tube to the section when
section_min <= tube <= section_max in both coordinates (inclusive on
both sides). -/

def tube_separation : ℚ := (base_depth - 2 * WALL_THICKNESS - 2 * TUBE_OD) / (NUM_TUBES_X - 1)

def first_tube_offset : ℚ := WALL_THICKNESS + TUBE_OD

/-- Position of the i-th tube along either axis:
-base_depth/2 + first_tube_offset + i * tube_separation. -/
def tube_coord (i : ℕ) : ℚ := -base_depth / 2 + first_tube_offset + (i : ℚ) * tube_separation

/-- The 3x3 grid of tube positions. -/
def tube_positions : List (ℚ × ℚ) :=
  ((List.range 3).map
    (fun (i : ℕ) => (List.range 3).map (fun (j : ℕ) => (tube_coord i, tube_coord j)))).flatten

def BASE_SECTIONS_X : ℚ := 3
def BASE_SECTIONS_Y : ℚ := 3

def section_width : ℚ := base_width / BASE_SECTIONS_X
def section_depth : ℚ := base_depth / BASE_SECTIONS_Y

def section_min_x (sx : ℕ) : ℚ := -base_width / 2 + (sx : ℚ) * section_width
def section_max_x (sx : ℕ) : ℚ := section_min_x sx + section_width
def section_min_y (sy : ℕ) : ℚ := -base_depth / 2 + (sy : ℚ) * section_depth
def section_max_y (sy : ℕ) : ℚ := section_min_y sy + section_depth

/-- The inclusive-bounds membership test the section builder uses. -/
def tube_in_section (sx sy : ℕ) (t : ℚ × ℚ) : Bool :=
  decide (section_min_x sx ≤ t.1 ∧ t.1 ≤ section_max_x sx ∧
    section_min_y sy ≤ t.2 ∧ t.2 ≤ section_max_y sy)

/-- The tubes the builder of section (sx, sy) collects. -/
def section_tubes (sx sy : ℕ) : List (ℚ × ℚ) :=
  tube_positions.filter (tube_in_section sx sy)

def all_sections : List (ℕ × ℕ) :=
  [(0, 0), (0, 1), (0, 2), (1, 0), (1, 1), (1, 2), (2, 0), (2, 1), (2, 2)]

lemma tube_coord_eval :
    tube_coord 0 = -139 ∧ tube_coord 1 = 0 ∧ tube_coord 2 = 139 := by
  refine ⟨?_, ?_, ?_⟩ <;>
    norm_num [tube_coord, first_tube_offset, tube_separation, base_depth,
      MANIFOLD_BASE_SIZE, MANIFOLD_OUTER_MARGIN, WALL_THICKNESS, TUBE_OD,
      NUM_TUBES_X]

lemma tube_positions_eval :
    tube_positions = [(-139, -139), (-139, 0), (-139, 139), (0, -139), (0, 0), (0, 139),
      (139, -139), (139, 0), (139, 139)] := by
  obtain ⟨h0, h1, h2⟩ := tube_coord_eval
  simp [tube_positions, List.range_succ, h0, h1, h2]

lemma section_bounds_eval :
    (∀ sx : ℕ, section_min_x sx = -180 + (sx : ℚ) * 120 ∧
      section_max_x sx = -60 + (sx : ℚ) * 120) ∧
    (∀ sy : ℕ, section_min_y sy = -180 + (sy : ℚ) * 120 ∧
      section_max_y sy = -60 + (sy : ℚ) * 120) := by
  constructor
  · intro sx
    constructor <;>
      (norm_num [section_min_x, section_max_x, section_width, base_width,
        BASE_SECTIONS_X, MANIFOLD_BASE_SIZE, MANIFOLD_OUTER_MARGIN]; try ring)
  · intro sy
    constructor <;>
      (norm_num [section_min_y, section_max_y, section_depth, base_depth,
        BASE_SECTIONS_Y, MANIFOLD_BASE_SIZE, MANIFOLD_OUTER_MARGIN]; try ring)

/-- C10: with the shipped parameter table every one of the 9 computed tube
positions lies strictly inside its section, no tube position equals any
section boundary coordinate, each section's builder collects exactly one
tube, and each tube is collected by exactly one of the 9 sections even
though the membership test is inclusive on both sides. -/
theorem c10_one_tube_per_section :
    (∀ sx sy : ℕ, sx < 3 → sy < 3 →
      (section_tubes sx sy).length = 1 ∧
      ∀ t ∈ section_tubes sx sy,
        section_min_x sx < t.1 ∧ t.1 < section_max_x sx ∧
        section_min_y sy < t.2 ∧ t.2 < section_max_y sy) ∧
    (∀ t ∈ tube_positions, ∀ k : ℕ, k < 3 →
      t.1 ≠ section_min_x k ∧ t.1 ≠ section_max_x k ∧
      t.2 ≠ section_min_y k ∧ t.2 ≠ section_max_y k) ∧
    (∀ t ∈ tube_positions,
      (all_sections.filter (fun s => tube_in_section s.1 s.2 t)).length = 1) := by
  obtain ⟨hbx, hby⟩ := section_bounds_eval
  obtain ⟨h0, h1, h2⟩ := tube_coord_eval
  refine ⟨?_, ?_, ?_⟩
  · intro sx sy hx hy
    interval_cases sx <;> interval_cases sy <;>
      (constructor
       · norm_num [section_tubes, tube_positions, List.range_succ, h0, h1, h2,
           tube_in_section, List.filter,
           (hbx 0).1, (hbx 0).2, (hbx 1).1, (hbx 1).2, (hbx 2).1, (hbx 2).2,
           (hby 0).1, (hby 0).2, (hby 1).1, (hby 1).2, (hby 2).1, (hby 2).2]
       · intro t ht
         norm_num [section_tubes, tube_positions, List.range_succ, h0, h1, h2,
           tube_in_section, List.filter,
           (hbx 0).1, (hbx 0).2, (hbx 1).1, (hbx 1).2, (hbx 2).1, (hbx 2).2,
           (hby 0).1, (hby 0).2, (hby 1).1, (hby 1).2, (hby 2).1, (hby 2).2] at ht
         subst ht
         norm_num [(hbx 0).1, (hbx 0).2, (hbx 1).1, (hbx 1).2, (hbx 2).1, (hbx 2).2,
           (hby 0).1, (hby 0).2, (hby 1).1, (hby 1).2, (hby 2).1, (hby 2).2])
  · intro t ht k hk
    rw [tube_positions_eval] at ht
    interval_cases k <;> fin_cases ht <;>
      norm_num [(hbx 0).1, (hbx 0).2, (hbx 1).1, (hbx 1).2, (hbx 2).1, (hbx 2).2,
        (hby 0).1, (hby 0).2, (hby 1).1, (hby 1).2, (hby 2).1, (hby 2).2]
  · intro t ht
    rw [tube_positions_eval] at ht
    fin_cases ht <;>
      norm_num [all_sections, tube_in_section, List.filter,
        (hbx 0).1, (hbx 0).2, (hbx 1).1, (hbx 1).2, (hbx 2).1, (hbx 2).2,
        (hby 0).1, (hby 0).2, (hby 1).1, (hby 1).2, (hby 2).1, (hby 2).2]

/-- C10 witness: section (0, 0) collects exactly the tube at (-139, -139),
strictly inside it. -/
theorem c10_witness :
    (section_tubes 0 0).length = 1 ∧
    section_min_x 0 < (-139 : ℚ) ∧ (-139 : ℚ) < section_max_x 0 := by
  obtain ⟨h1, _, _⟩ := c10_one_tube_per_section
  obtain ⟨hlen, hin⟩ := h1 0 0 (by norm_num) (by norm_num)
  refine ⟨hlen, ?_⟩
  obtain ⟨h0, hc1, hc2⟩ := tube_coord_eval
  have hmem : ((-139 : ℚ), (-139 : ℚ)) ∈ section_tubes 0 0 := by
    norm_num [section_tubes, tube_positions, List.range_succ, h0, hc1, hc2,
      tube_in_section, List.filter,
      section_min_x, section_max_x, section_width, base_width, BASE_SECTIONS_X,
      MANIFOLD_BASE_SIZE, MANIFOLD_OUTER_MARGIN, section_min_y, section_max_y,
      section_depth, base_depth, BASE_SECTIONS_Y]
  obtain ⟨hs1, hs2, _, _⟩ := hin _ hmem
  exact ⟨hs1, hs2⟩

end AirFlowManifold
